import Mathlib

/-!
Verification of the translate-bot inbox worker
(`workers/inbox_worker.py`): a shallow embedding of `handle_create` and
`run_worker` together with the external collaborators they call
(translation port, actor resolution, signing-key lookup, signed
transmission), and theorems settling the specification's claims about
mention filtering, text extraction, reply composition, addressing,
key selection and per-item fault containment.

Modelling conventions:
* The note body (`note.content`, an HTML string parsed with
  BeautifulSoup in the source) is embedded at the parse-tree level as a
  forest of nodes; the raw string the source holds is recovered by
  `renderForest`, and the substring mention check of line 47 of the
  source is performed on that rendering.
* External calls that the source awaits are fields of an `Env` record;
  calls whose exceptions the source does not catch are `Except`-valued
  so a raised exception is an `Except.error` outcome of `handle_create`.
* Side effects are tracked explicitly: the texts submitted to the
  translation port, the transmissions attempted, and the error-level log
  messages.  (Info-level logging is not tracked.)
* `uuid.uuid4()` and `datetime.now` are injected through `Env` fields,
  since the claims never depend on their values.
-/

/-- The process-wide settings the worker reads (`app/config.py` /
`settings.toml`): federation domain, bot account name, translation
target language. -/
structure Settings where
  domain : String
  bot_username : String
  target_language : String
deriving Repr, DecidableEq

/-- The bot's canonical actor identifier (line 44 of the source):
`https://` plus the configured domain, `/users/`, and the bot
username. -/
def botActorUrl (s : Settings) : String :=
  "https://" ++ s.domain ++ "/users/" ++ s.bot_username

/-- Python's `s.strip()`: drop leading and trailing whitespace
(kernel-reducible, unlike `String.trim`). -/
def strip (s : String) : String :=
  ⟨((s.data.dropWhile Char.isWhitespace).reverse.dropWhile
      Char.isWhitespace).reverse⟩

/-- Split a character list at every occurrence of `sep`, keeping empty
groups, as Python's `str.split(sep)` does for a one-character
separator. -/
def splitChar (sep : Char) : List Char → List (List Char)
  | [] => [[]]
  | c :: cs =>
      match splitChar sep cs with
      | [] => [[]]
      | g :: gs => if c = sep then [] :: g :: gs else (c :: g) :: gs

/-- Python's `s.split(sep)` for a one-character separator. -/
def strSplit (s : String) (sep : Char) : List String :=
  (splitChar sep s.data).map (fun l => ⟨l⟩)

/-- Python's `s.upper()` (kernel-reducible, unlike `String.toUpper`). -/
def strToUpper (s : String) : String :=
  ⟨s.data.map Char.toUpper⟩

/-- Python's `s.rstrip(c)` for a one-character argument: drop every
trailing occurrence of `c`. -/
def rstripChar (c : Char) (s : String) : String :=
  ⟨(s.data.reverse.dropWhile (· = c)).reverse⟩

/-- Python's `pat in s` substring test on strings. -/
def strContains (s pat : String) : Bool :=
  (List.range (s.data.length + 1)).any
    (fun i => pat.data.isPrefixOf (s.data.drop i))

mutual
/-- A parsed HTML node: either a text node (a `NavigableString` in
BeautifulSoup terms) or an element with a tag name, attributes, and a
forest of children. -/
inductive Html where
  | text (s : String) : Html
  | elem (tag : String) (attrs : List (String × String))
      (children : Forest) : Html

/-- A sequence of sibling HTML nodes (a parsed document or the children
of one element). -/
inductive Forest where
  | nil : Forest
  | cons (h : Html) (t : Forest) : Forest
end

/-- Build a forest from a list of nodes (notation convenience for
concrete documents). -/
def Forest.ofList : List Html → Forest
  | [] => .nil
  | h :: t => .cons h (Forest.ofList t)

/-- Render an attribute list back to its HTML source form. -/
def renderAttrs : List (String × String) → String
  | [] => ""
  | (k, v) :: rest => " " ++ k ++ "=\x22" ++ v ++ "\x22" ++ renderAttrs rest

mutual
/-- Render a node back to the HTML string it was parsed from. -/
def renderNode : Html → String
  | .text s => s
  | .elem tag attrs children =>
      "<" ++ tag ++ renderAttrs attrs ++ ">" ++ renderForest children
        ++ "</" ++ tag ++ ">"

/-- Render a forest of nodes back to the HTML string it was parsed
from; `note.content or ""` in the source is `renderForest` of the
parsed body. -/
def renderForest : Forest → String
  | .nil => ""
  | .cons h hs => renderNode h ++ renderForest hs
end

/-- The (space-separated) class list of an attribute list, as
BeautifulSoup exposes the multi-valued `class` attribute. -/
def classListOf (attrs : List (String × String)) : List String :=
  strSplit ((attrs.lookup "class").getD "") ' '

/-- Whether a node matches `soup.find_all("span", \x7b"class": "mention"\x7d)`
(line 52 of the source): a `span` element whose class list holds
`mention`. -/
def isMentionSpan (tag : String) (attrs : List (String × String)) : Bool :=
  tag == "span" && (classListOf attrs).contains "mention"

/-- `tag.decompose()` applied to every mention span (lines 52–53 of the
source): remove, at any depth, every element matching `isMentionSpan`,
with all its descendants. -/
def stripMentions : Forest → Forest
  | .nil => .nil
  | .cons (.text s) hs => .cons (.text s) (stripMentions hs)
  | .cons (.elem tag attrs children) hs =>
      if isMentionSpan tag attrs then stripMentions hs
      else .cons (.elem tag attrs (stripMentions children)) (stripMentions hs)

/-- The text nodes of a forest in document order (the strings
`soup.get_text` concatenates). -/
def textNodes : Forest → List String
  | .nil => []
  | .cons (.text s) hs => s :: textNodes hs
  | .cons (.elem _ _ children) hs => textNodes children ++ textNodes hs

/-- `soup.get_text(separator=" ")`: join every remaining text node with
a single space. -/
def getText (forest : Forest) : String :=
  String.intercalate " " (textNodes forest)

/-- Lines 51–54 of the source: decompose the mention spans, join the
remaining text nodes with single spaces, and strip surrounding
whitespace.  This is the plain text submitted to translation. -/
def extractPlainText (forest : Forest) : String :=
  strip (getText (stripMentions forest))

/-- The result dict of `translate_text` (`app/services/translate.py`):
translated text and detected source language. -/
structure TranslationResult where
  translated : String
  detected_source : String
deriving Repr, DecidableEq

/-- The remote actor record returned by `client.actor.fetch`
(line 74 of the source): the fields `handle_create` reads. -/
structure RemoteActor where
  id : String
  preferred_username : String
  inbox : String
deriving Repr, DecidableEq

/-- The private-key material carried by an `ActorKey`: either RSA
(the expected asymmetric kind, `rsa_module.RSAPrivateKey`) or some
other kind. -/
inductive KeyMaterial where
  | rsa (material : String) : KeyMaterial
  | other (material : String) : KeyMaterial
deriving Repr, DecidableEq

/-- `isinstance(key.private_key, rsa_module.RSAPrivateKey)`
(line 124 of the source). -/
def KeyMaterial.isRsa : KeyMaterial → Bool
  | .rsa _ => true
  | .other _ => false

/-- One signing key returned by `get_bot_keys`
(`app/activitypub/keys.py`): a key id and private-key material. -/
structure ActorKey where
  key_id : String
  private_key : KeyMaterial
deriving Repr, DecidableEq

/-- Lines 121–127 of the source: scan the key list in order and keep
the first entry whose private key is RSA (`break` on the first hit);
`none` when no entry matches. -/
def selectRsaKey : List ActorKey → Option ActorKey
  | [] => none
  | k :: rest =>
      if k.private_key.isRsa then some k else selectRsaKey rest

/-- `activity.actor`: either a bare identifier string or an embedded
actor object carrying an `id` (line 67 of the source reads
`activity.actor if isinstance(activity.actor, str) else activity.actor.id`). -/
inductive ActorRef where
  | url (s : String) : ActorRef
  | obj (id : String) : ActorRef
deriving Repr, DecidableEq

/-- Line 66–68 of the source: the author identifier extracted from
`activity.actor`. -/
def authorUrlOf : ActorRef → String
  | .url s => s
  | .obj id => id

/-- `author_url.rstrip("/").split("/")[-1]` (line 69 of the source);
the final URL segment, the author's username token. -/
def lastUrlSegment (url : String) : String :=
  ((strSplit (rstripChar '/' url) '/').getLast?).getD ""

/-- `author_url.split("/")[2]` (line 70 of the source); the author's
domain (modelled total: the empty string when the URL has fewer than
three `/`-separated parts, where Python would raise). -/
def urlDomain (url : String) : String :=
  ((strSplit url '/').get? 2).getD ""

/-- The object of an inbound `Create`: a `Note` (the source checks
`isinstance(note, Note)` on line 41) with its identifier and optional
parsed body, or some other activity object. -/
inductive ApObject where
  | note (id : String) (content : Option Forest) : ApObject
  | other : ApObject

/-- An inbound `Create` activity as dequeued by the worker. -/
structure CreateActivity where
  id : String
  actor : ActorRef
  object : ApObject

/-- Lines 77–81 of the source: the reply body HTML, built from the
author's URL and username token, the upper-cased source and target
language codes and the translated text. -/
def reply_html (author_url author_username source_lang target_lang
    translated : String) : String :=
  "<p><span class=\x22h-card\x22><a href=\x22" ++ author_url ++ "\x22>@"
    ++ author_username ++ "</a></span> 🌐 <strong>[" ++ source_lang
    ++ " → " ++ target_lang ++ "]</strong><br>" ++ translated ++ "</p>"

/-- The reply `Note` (lines 93–108 of the source), with the fields the
claims inspect. -/
structure ReplyNote where
  id : String
  attributed_to : String
  content : String
  «to» : List String
  cc : List String
  in_reply_to : String
  published : String
  tag_href : String
  tag_name : String
deriving Repr, DecidableEq

/-- The reply `Create` wrapper (lines 110–117 of the source). -/
structure ReplyCreate where
  id : String
  actor : String
  object : ReplyNote
  «to» : List String
  cc : List String
  published : String
deriving Repr, DecidableEq

/-- One transmission attempt: the `client.post(...)` call of
lines 136–140 of the source, with the signing arguments it was given. -/
structure Delivery where
  inbox : String
  activity : ReplyCreate
  key_id : String
  sign_with : List String
deriving Repr, DecidableEq

/-- The environment of external collaborators `handle_create` awaits.
`translate` and `fetchActor` are `Except`-valued because the source
does not catch their exceptions; `post` is `Except`-valued but its
failure is caught on line 145.  `noteUuid` / `createUuid` / `now`
inject the values of `uuid.uuid4()` and `datetime.now(timezone.utc)`. -/
structure Env where
  settings : Settings
  translate : String → Except String TranslationResult
  fetchActor : String → Except String RemoteActor
  getBotKeys : List ActorKey
  post : String → ReplyCreate → Except String Nat
  noteUuid : String
  createUuid : String
  now : String

instance {ε α : Type} [DecidableEq ε] [DecidableEq α] :
    DecidableEq (Except ε α) := fun a b =>
  match a, b with
  | .ok x, .ok y =>
      if h : x = y then isTrue (by rw [h])
      else isFalse (fun hh => h (by cases hh; rfl))
  | .ok _, .error _ => isFalse (fun h => Except.noConfusion h)
  | .error _, .ok _ => isFalse (fun h => Except.noConfusion h)
  | .error e, .error f =>
      if h : e = f then isTrue (by rw [h])
      else isFalse (fun hh => h (by cases hh; rfl))

/-- The observable result of one `handle_create` call: the texts
submitted to the translation port, the transmissions attempted, the
error-level log messages, and whether an exception escaped (`.error`)
or the coroutine returned normally (`.ok ()`). -/
structure HResult where
  translateCalls : List String := []
  deliveries : List Delivery := []
  errorLogs : List String := []
  outcome : Except String Unit := .ok ()
deriving Repr, DecidableEq

/-- Line 130 of the source: the error logged when no RSA private key
is found. -/
def rsaKeyErrorMsg : String :=
  "Chave privada RSA não encontrada — não é possível enviar resposta"

/-- Line 146 of the source: the error logged when delivery fails. -/
def deliveryErrorMsg (author_url e : String) : String :=
  "Erro ao entregar resposta para " ++ author_url ++ ": " ++ e

/-- The reply `Note` of lines 93–108 of the source: fresh id under the
bot's namespace, attributed to the bot, composed body, addressed to the
author with the public collection in carbon-copy, linked to the
original note, stamped with the current time, carrying one mention tag
for the author. -/
def mkReplyNote (env : Env) (orig_note_id author_url : String)
    (result : TranslationResult) (remote_actor : RemoteActor) : ReplyNote :=
  { id := botActorUrl env.settings ++ "/notes/" ++ env.noteUuid
    attributed_to := botActorUrl env.settings
    content := reply_html author_url (lastUrlSegment author_url)
        (strToUpper result.detected_source)
        (strToUpper env.settings.target_language) result.translated
    «to» := [author_url]
    cc := ["https://www.w3.org/ns/activitystreams#Public"]
    in_reply_to := orig_note_id
    published := env.now
    tag_href := author_url
    tag_name := "@" ++ remote_actor.preferred_username ++ "@"
        ++ urlDomain author_url }

/-- The reply `Create` wrapper of lines 110–117 of the source. -/
def mkReplyCreate (env : Env) (orig_note_id author_url : String)
    (result : TranslationResult) (remote_actor : RemoteActor) : ReplyCreate :=
  { id := botActorUrl env.settings ++ "/creates/" ++ env.createUuid
    actor := botActorUrl env.settings
    object := mkReplyNote env orig_note_id author_url result remote_actor
    «to» := [author_url]
    cc := ["https://www.w3.org/ns/activitystreams#Public"]
    published := env.now }

/-- The transmission attempt of lines 136–140 of the source: the reply
wrapper posted to the resolved inbox, signed with the selected key under
the `draft-cavage` scheme. -/
def mkDelivery (env : Env) (orig_note_id author_url : String)
    (result : TranslationResult) (remote_actor : RemoteActor)
    (key : ActorKey) : Delivery :=
  { inbox := remote_actor.inbox
    activity := mkReplyCreate env orig_note_id author_url result remote_actor
    key_id := key.key_id
    sign_with := ["draft-cavage"] }

/-- Shallow embedding of `handle_create` (lines 33–146 of the source),
followed branch by branch: non-`Note` object → return; body without the
bot's actor URL → return; empty plain text after stripping the mention
→ return; translate (uncaught on failure); fetch the remote actor
(uncaught on failure); compose the reply (`mkReplyCreate`); select the
first RSA key, logging an error and returning when none is usable;
attempt the signed transmission, catching and logging any failure. -/
def handle_create (env : Env) (activity : CreateActivity) : HResult :=
  match activity.object with
  | .other => {}
  | .note note_id content =>
    let bot_actor_url := botActorUrl env.settings
    let content_html := renderForest (content.getD .nil)
    if ¬ strContains content_html bot_actor_url then {}
    else
      let plain_text := extractPlainText (content.getD .nil)
      if plain_text = "" then {}
      else
        match env.translate plain_text with
        | .error e => { translateCalls := [plain_text], outcome := .error e }
        | .ok result =>
          let author_url := authorUrlOf activity.actor
          match env.fetchActor author_url with
          | .error e =>
              { translateCalls := [plain_text], outcome := .error e }
          | .ok remote_actor =>
            match selectRsaKey env.getBotKeys with
            | none =>
                { translateCalls := [plain_text]
                  errorLogs := [rsaKeyErrorMsg] }
            | some key =>
              if key.key_id = "" then
                { translateCalls := [plain_text]
                  errorLogs := [rsaKeyErrorMsg] }
              else
                match env.post remote_actor.inbox
                    (mkReplyCreate env note_id author_url result
                      remote_actor) with
                | .ok _ =>
                    { translateCalls := [plain_text]
                      deliveries := [mkDelivery env note_id author_url result
                        remote_actor key] }
                | .error e =>
                    { translateCalls := [plain_text]
                      deliveries := [mkDelivery env note_id author_url result
                        remote_actor key]
                      errorLogs := [deliveryErrorMsg author_url e] }

/-- The worker loop's handling of one dequeued item (lines 153–159 of
the source): `handle_create`, then `task_done()` — but only when
`handle_create` returned without raising; an exception jumps to the
`except` clause, which logs the fault and continues, never reaching
`task_done()`. -/
structure ItemResult where
  hres : HResult
  taskDoneCalls : Nat
  workerFaultLogged : Bool
deriving Repr, DecidableEq

/-- One iteration of `run_worker`'s loop body on a dequeued item. -/
def runWorkerStep (env : Env) (item : CreateActivity) : ItemResult :=
  let r := handle_create env item
  match r.outcome with
  | .ok _ => { hres := r, taskDoneCalls := 1, workerFaultLogged := false }
  | .error _ => { hres := r, taskDoneCalls := 0, workerFaultLogged := true }

/-- Shallow embedding of `run_worker` (lines 149–159 of the source) on
a finite queue history: the loop dequeues each item in FIFO order and
applies the loop body; the catch-all `except` means a fault in one item
never terminates the loop, so every queued item is handled. -/
def run_worker (env : Env) (items : List CreateActivity) : List ItemResult :=
  items.map (runWorkerStep env)

/-! Concrete fixtures mirroring `tests/test_inbox_worker.py`: a bot at
`https://bot.test/users/testbot` with target language `pt`, an author at
`https://mastodon.social/users/fulano`, and note bodies with and
without the bot mention. -/

/-- The test configuration: domain `bot.test`, account `testbot`,
target language `pt`. -/
def cSettings : Settings := ⟨"bot.test", "testbot", "pt"⟩

/-- The mention widget
`<span class="mention"><a href="https://bot.test/users/testbot">@testbot</a></span>`. -/
def mentionSpanNode : Html :=
  .elem "span" [("class", "mention")]
    (.ofList [.elem "a" [("href", "https://bot.test/users/testbot")]
      (.ofList [.text "@testbot"])])

/-- A note body holding the mention plus the text
` Bonjour tout le monde`. -/
def cContentWithText : Forest :=
  .ofList [.elem "p" []
    (.ofList [mentionSpanNode, .text " Bonjour tout le monde"])]

/-- A note body holding only the mention. -/
def cContentMentionOnly : Forest :=
  .ofList [.elem "p" [] (.ofList [mentionSpanNode])]

/-- A note body that does not mention the bot. -/
def cContentNoMention : Forest :=
  .ofList [.elem "p" [] (.ofList [.text "Post sem mencionar o bot"])]

/-- The resolved remote author record. -/
def cRemoteActor : RemoteActor :=
  ⟨"https://mastodon.social/users/fulano", "fulano",
   "https://mastodon.social/users/fulano/inbox"⟩

/-- A usable RSA signing key. -/
def cRsaKey : ActorKey :=
  ⟨"https://bot.test/users/testbot#main-key", .rsa "pem"⟩

/-- A key whose material is not of the expected RSA kind. -/
def cNonRsaKey : ActorKey :=
  ⟨"https://bot.test/users/testbot#ed-key", .other "ed25519"⟩

/-- An environment in which every collaborator succeeds. -/
def cEnv : Env :=
  { settings := cSettings
    translate := fun _ => .ok ⟨"Olá a todos", "fr"⟩
    fetchActor := fun _ => .ok cRemoteActor
    getBotKeys := [cRsaKey]
    post := fun _ _ => .ok 202
    noteUuid := "uuid-note-1"
    createUuid := "uuid-create-1"
    now := "2026-10-12T00:00:00+00:00" }

/-- `cEnv` with a failing translation port (simulated transport
error). -/
def cEnvTransFail : Env :=
  { cEnv with translate := fun _ => .error "transport error" }

/-- `cEnv` with a failing transmission collaborator. -/
def cEnvPostFail : Env :=
  { cEnv with post := fun _ _ => .error "connection refused" }

/-- `cEnv` with a key list holding no RSA entry. -/
def cEnvNoRsa : Env :=
  { cEnv with getBotKeys := [cNonRsaKey] }

/-- An eligible inbound activity: mention plus translatable text. -/
def cActivity : CreateActivity :=
  { id := "https://mastodon.social/statuses/1/activity"
    actor := .url "https://mastodon.social/users/fulano"
    object := .note "https://mastodon.social/statuses/1"
        (some cContentWithText) }

/-- An inbound activity whose note does not mention the bot. -/
def cActivityNoMention : CreateActivity :=
  { id := "https://mastodon.social/statuses/2/activity"
    actor := .url "https://mastodon.social/users/fulano"
    object := .note "https://mastodon.social/statuses/2"
        (some cContentNoMention) }

/-- An inbound activity whose note holds only the mention. -/
def cActivityMentionOnly : CreateActivity :=
  { id := "https://mastodon.social/statuses/3/activity"
    actor := .url "https://mastodon.social/users/fulano"
    object := .note "https://mastodon.social/statuses/3"
        (some cContentMentionOnly) }

/-- An inbound activity whose note carries no content field. -/
def cActivityNoContent : CreateActivity :=
  { id := "https://mastodon.social/statuses/4/activity"
    actor := .url "https://mastodon.social/users/fulano"
    object := .note "https://mastodon.social/statuses/4" none }

/-- An eligible inbound activity authored by the bot itself. -/
def cActivitySelf : CreateActivity :=
  { id := "https://bot.test/users/testbot/statuses/5/activity"
    actor := .url "https://bot.test/users/testbot"
    object := .note "https://bot.test/users/testbot/statuses/5"
        (some cContentWithText) }

/-! Helper lemmas: forward characterizations of `handle_create`, one per
branch of the source, each proved by unfolding the embedding under the
branch's conditions. -/

/-- Line 41–42 of the source: a non-`Note` object is ignored. -/
theorem handle_create_not_note (env : Env) (act : CreateActivity)
    (hobj : act.object = .other) : handle_create env act = {} := by
  simp [handle_create, hobj]

/-- Lines 47–48 of the source: a body without the bot's actor URL is
ignored silently. -/
theorem handle_create_no_mention (env : Env) (act : CreateActivity)
    (nid : String) (content : Option Forest)
    (hobj : act.object = .note nid content)
    (hm : strContains (renderForest (content.getD .nil))
      (botActorUrl env.settings) = false) :
    handle_create env act = {} := by
  simp [handle_create, hobj, hm]

/-- Lines 56–57 of the source: an empty plain text after stripping the
mention is ignored silently. -/
theorem handle_create_empty_plain (env : Env) (act : CreateActivity)
    (nid : String) (content : Option Forest)
    (hobj : act.object = .note nid content)
    (hm : strContains (renderForest (content.getD .nil))
      (botActorUrl env.settings) = true)
    (hp : extractPlainText (content.getD .nil) = "") :
    handle_create env act = {} := by
  simp [handle_create, hobj, hm, hp]

/-- Line 60 of the source: a translation failure escapes uncaught after
the translation port was called. -/
theorem handle_create_translate_error (env : Env) (act : CreateActivity)
    (nid : String) (content : Option Forest) (e : String)
    (hobj : act.object = .note nid content)
    (hm : strContains (renderForest (content.getD .nil))
      (botActorUrl env.settings) = true)
    (hp : ¬ extractPlainText (content.getD .nil) = "")
    (ht : env.translate (extractPlainText (content.getD .nil)) = .error e) :
    handle_create env act =
      { translateCalls := [extractPlainText (content.getD .nil)]
        outcome := .error e } := by
  simp [handle_create, hobj, hm, hp, ht]

/-- Line 74 of the source: an actor-resolution failure escapes
uncaught. -/
theorem handle_create_fetch_error (env : Env) (act : CreateActivity)
    (nid : String) (content : Option Forest) (res : TranslationResult)
    (e : String)
    (hobj : act.object = .note nid content)
    (hm : strContains (renderForest (content.getD .nil))
      (botActorUrl env.settings) = true)
    (hp : ¬ extractPlainText (content.getD .nil) = "")
    (ht : env.translate (extractPlainText (content.getD .nil)) = .ok res)
    (hf : env.fetchActor (authorUrlOf act.actor) = .error e) :
    handle_create env act =
      { translateCalls := [extractPlainText (content.getD .nil)]
        outcome := .error e } := by
  simp [handle_create, hobj, hm, hp, ht, hf]

/-- Lines 129–131 of the source: no RSA key in the list → error logged,
item abandoned, no exception. -/
theorem handle_create_no_rsa (env : Env) (act : CreateActivity)
    (nid : String) (content : Option Forest) (res : TranslationResult)
    (ra : RemoteActor)
    (hobj : act.object = .note nid content)
    (hm : strContains (renderForest (content.getD .nil))
      (botActorUrl env.settings) = true)
    (hp : ¬ extractPlainText (content.getD .nil) = "")
    (ht : env.translate (extractPlainText (content.getD .nil)) = .ok res)
    (hf : env.fetchActor (authorUrlOf act.actor) = .ok ra)
    (hk : selectRsaKey env.getBotKeys = none) :
    handle_create env act =
      { translateCalls := [extractPlainText (content.getD .nil)]
        errorLogs := [rsaKeyErrorMsg] } := by
  simp [handle_create, hobj, hm, hp, ht, hf, hk]

/-- Lines 129–131 of the source: Python's falsy check on `key_id` also
abandons the item when the selected key's id is the empty string. -/
theorem handle_create_empty_keyid (env : Env) (act : CreateActivity)
    (nid : String) (content : Option Forest) (res : TranslationResult)
    (ra : RemoteActor) (key : ActorKey)
    (hobj : act.object = .note nid content)
    (hm : strContains (renderForest (content.getD .nil))
      (botActorUrl env.settings) = true)
    (hp : ¬ extractPlainText (content.getD .nil) = "")
    (ht : env.translate (extractPlainText (content.getD .nil)) = .ok res)
    (hf : env.fetchActor (authorUrlOf act.actor) = .ok ra)
    (hk : selectRsaKey env.getBotKeys = some key)
    (hkid : key.key_id = "") :
    handle_create env act =
      { translateCalls := [extractPlainText (content.getD .nil)]
        errorLogs := [rsaKeyErrorMsg] } := by
  simp [handle_create, hobj, hm, hp, ht, hf, hk, hkid]

/-- Lines 134–144 of the source: successful transmission. -/
theorem handle_create_post_ok (env : Env) (act : CreateActivity)
    (nid : String) (content : Option Forest) (res : TranslationResult)
    (ra : RemoteActor) (key : ActorKey) (n : Nat)
    (hobj : act.object = .note nid content)
    (hm : strContains (renderForest (content.getD .nil))
      (botActorUrl env.settings) = true)
    (hp : ¬ extractPlainText (content.getD .nil) = "")
    (ht : env.translate (extractPlainText (content.getD .nil)) = .ok res)
    (hf : env.fetchActor (authorUrlOf act.actor) = .ok ra)
    (hk : selectRsaKey env.getBotKeys = some key)
    (hkid : ¬ key.key_id = "")
    (hpost : env.post ra.inbox
      (mkReplyCreate env nid (authorUrlOf act.actor) res ra) = .ok n) :
    handle_create env act =
      { translateCalls := [extractPlainText (content.getD .nil)]
        deliveries := [mkDelivery env nid (authorUrlOf act.actor) res ra
          key] } := by
  simp [handle_create, hobj, hm, hp, ht, hf, hk, hkid, hpost]

/-- Lines 145–146 of the source: a transmission failure is caught and
logged; the outcome is still a normal return. -/
theorem handle_create_post_error (env : Env) (act : CreateActivity)
    (nid : String) (content : Option Forest) (res : TranslationResult)
    (ra : RemoteActor) (key : ActorKey) (e : String)
    (hobj : act.object = .note nid content)
    (hm : strContains (renderForest (content.getD .nil))
      (botActorUrl env.settings) = true)
    (hp : ¬ extractPlainText (content.getD .nil) = "")
    (ht : env.translate (extractPlainText (content.getD .nil)) = .ok res)
    (hf : env.fetchActor (authorUrlOf act.actor) = .ok ra)
    (hk : selectRsaKey env.getBotKeys = some key)
    (hkid : ¬ key.key_id = "")
    (hpost : env.post ra.inbox
      (mkReplyCreate env nid (authorUrlOf act.actor) res ra) = .error e) :
    handle_create env act =
      { translateCalls := [extractPlainText (content.getD .nil)]
        deliveries := [mkDelivery env nid (authorUrlOf act.actor) res ra key]
        errorLogs := [deliveryErrorMsg (authorUrlOf act.actor) e] } := by
  simp [handle_create, hobj, hm, hp, ht, hf, hk, hkid, hpost]

/-- Any delivery attempted by `handle_create` arises from the unique
eligible path through the source: a `Note` whose rendered body holds
the bot mention, non-empty plain text, a successful translation, a
resolved remote actor, and a usable RSA key — and the attempt is
exactly the signed transmission composed from those values. -/
theorem mem_deliveries_shape (env : Env) (act : CreateActivity) (d : Delivery)
    (hd : d ∈ (handle_create env act).deliveries) :
    ∃ nid content res ra key,
      act.object = .note nid content
      ∧ strContains (renderForest (content.getD .nil))
          (botActorUrl env.settings) = true
      ∧ ¬ extractPlainText (content.getD .nil) = ""
      ∧ env.translate (extractPlainText (content.getD .nil)) = .ok res
      ∧ env.fetchActor (authorUrlOf act.actor) = .ok ra
      ∧ selectRsaKey env.getBotKeys = some key
      ∧ ¬ key.key_id = ""
      ∧ d = mkDelivery env nid (authorUrlOf act.actor) res ra key := by
  cases hobj : act.object with
  | other => rw [handle_create_not_note env act hobj] at hd; simp at hd
  | note nid content =>
    cases hm : strContains (renderForest (content.getD .nil))
        (botActorUrl env.settings) with
    | false =>
      rw [handle_create_no_mention env act nid content hobj hm] at hd
      simp at hd
    | true =>
      by_cases hp : extractPlainText (content.getD .nil) = ""
      · rw [handle_create_empty_plain env act nid content hobj hm hp] at hd
        simp at hd
      · cases ht : env.translate (extractPlainText (content.getD .nil)) with
        | error e =>
          rw [handle_create_translate_error env act nid content e hobj hm hp
            ht] at hd
          simp at hd
        | ok res =>
          cases hf : env.fetchActor (authorUrlOf act.actor) with
          | error e =>
            rw [handle_create_fetch_error env act nid content res e hobj hm hp
              ht hf] at hd
            simp at hd
          | ok ra =>
            cases hk : selectRsaKey env.getBotKeys with
            | none =>
              rw [handle_create_no_rsa env act nid content res ra hobj hm hp
                ht hf hk] at hd
              simp at hd
            | some key =>
              by_cases hkid : key.key_id = ""
              · rw [handle_create_empty_keyid env act nid content res ra key
                  hobj hm hp ht hf hk hkid] at hd
                simp at hd
              · cases hpost : env.post ra.inbox
                    (mkReplyCreate env nid (authorUrlOf act.actor) res ra) with
                | ok n =>
                  rw [handle_create_post_ok env act nid content res ra key n
                    hobj hm hp ht hf hk hkid hpost] at hd
                  simp at hd
                  exact ⟨nid, content, res, ra, key, rfl, hm, hp, ht, rfl,
                    rfl, hkid, hd⟩
                | error e =>
                  rw [handle_create_post_error env act nid content res ra key e
                    hobj hm hp ht hf hk hkid hpost] at hd
                  simp at hd
                  exact ⟨nid, content, res, ra, key, rfl, hm, hp, ht, rfl,
                    rfl, hkid, hd⟩

/-- When `handle_create` ends in an uncaught exception, no transmission
was attempted: the exception (translation or resolution failure) occurs
strictly before the delivery step. -/
theorem handle_create_error_no_delivery (env : Env) (act : CreateActivity)
    (e : String) (h : (handle_create env act).outcome = .error e) :
    (handle_create env act).deliveries = [] := by
  unfold handle_create at h ⊢
  split at h <;> try simp_all
  any_goals (split at h <;> try simp_all)
  any_goals (split at h <;> try simp_all)
  any_goals (split at h <;> try simp_all)
  any_goals (split at h <;> try simp_all)
  any_goals (split at h <;> try simp_all)
  any_goals (split at h <;> try simp_all)
  any_goals (split at h <;> try simp_all)

/-- Every text `handle_create` submits to the translation port is the
extracted plain text of the note body. -/
theorem mem_translateCalls_eq (env : Env) (act : CreateActivity)
    (nid : String) (content : Option Forest)
    (hobj : act.object = .note nid content) :
    ∀ t ∈ (handle_create env act).translateCalls,
      t = extractPlainText (content.getD .nil) := by
  intro t ht
  cases hm : strContains (renderForest (content.getD .nil))
      (botActorUrl env.settings) with
  | false =>
    rw [handle_create_no_mention env act nid content hobj hm] at ht
    simp at ht
  | true =>
    by_cases hp : extractPlainText (content.getD .nil) = ""
    · rw [handle_create_empty_plain env act nid content hobj hm hp] at ht
      simp at ht
    · cases htr : env.translate (extractPlainText (content.getD .nil)) with
      | error e =>
        rw [handle_create_translate_error env act nid content e hobj hm hp
          htr] at ht
        simpa using ht
      | ok res =>
        cases hf : env.fetchActor (authorUrlOf act.actor) with
        | error e =>
          rw [handle_create_fetch_error env act nid content res e hobj hm hp
            htr hf] at ht
          simpa using ht
        | ok ra =>
          cases hk : selectRsaKey env.getBotKeys with
          | none =>
            rw [handle_create_no_rsa env act nid content res ra hobj hm hp
              htr hf hk] at ht
            simpa using ht
          | some key =>
            by_cases hkid : key.key_id = ""
            · rw [handle_create_empty_keyid env act nid content res ra key
                hobj hm hp htr hf hk hkid] at ht
              simpa using ht
            · cases hpost : env.post ra.inbox
                  (mkReplyCreate env nid (authorUrlOf act.actor) res ra) with
              | ok n =>
                rw [handle_create_post_ok env act nid content res ra key n
                  hobj hm hp htr hf hk hkid hpost] at ht
                simpa using ht
              | error e =>
                rw [handle_create_post_error env act nid content res ra key e
                  hobj hm hp htr hf hk hkid hpost] at ht
                simpa using ht

/-- A string decomposed as `a ++ (pat ++ b)` contains `pat` as a
substring. -/
theorem strContains_of_eq (s a pat b : String) (h : s = a ++ (pat ++ b)) :
    strContains s pat = true := by
  subst h
  unfold strContains
  rw [List.any_eq_true]
  refine ⟨a.data.length, ?_, ?_⟩
  · rw [List.mem_range]
    simp [String.data_append]
    omega
  · have hdrop : (a ++ (pat ++ b)).data.drop a.data.length
        = pat.data ++ b.data := by
      rw [String.data_append, String.data_append, List.drop_left]
    rw [hdrop]
    simp [List.isPrefixOf_iff_prefix]

/-- The empty string contains no non-empty pattern. -/
theorem strContains_empty_of_ne (p : String) (hp : p.data ≠ []) :
    strContains "" p = false := by
  have h0 : ("" : String).data = [] := rfl
  unfold strContains
  rw [h0]
  cases hd : p.data with
  | nil => exact absurd hd hp
  | cons c l => simp [List.range_succ, hd]

/-- The bot's actor URL is never the empty string (it starts with the
scheme). -/
theorem botActorUrl_data_ne_nil (s : Settings) : (botActorUrl s).data ≠ [] := by
  intro h
  unfold botActorUrl at h
  simp only [String.data_append, List.append_eq_nil] at h
  exact absurd h.1.1.1 (by decide)

/-- A key list in which every entry is non-RSA yields no selection. -/
theorem selectRsaKey_none_of_all (ks : List ActorKey)
    (h : ∀ k ∈ ks, k.private_key.isRsa = false) : selectRsaKey ks = none := by
  induction ks with
  | nil => rfl
  | cons k rest ih =>
    have hk := h k (List.mem_cons_self k rest)
    rw [selectRsaKey, hk]
    simp only [Bool.false_eq_true, if_false]
    exact ih (fun k' hk' => h k' (List.mem_cons_of_mem _ hk'))

/-- The selected key is RSA and is the first RSA entry of the list:
it occurs at an index before which every entry is non-RSA. -/
theorem selectRsaKey_first (ks : List ActorKey) (key : ActorKey)
    (h : selectRsaKey ks = some key) :
    key.private_key.isRsa = true
    ∧ ∃ i : Fin ks.length, ks.get i = key
        ∧ ∀ j : Fin ks.length, (j : Nat) < (i : Nat) →
            (ks.get j).private_key.isRsa = false := by
  induction ks with
  | nil => simp [selectRsaKey] at h
  | cons k rest ih =>
    by_cases hk : k.private_key.isRsa = true
    · rw [selectRsaKey, if_pos hk] at h
      injection h with h
      subst h
      refine ⟨hk, ⟨0, by simp⟩, rfl, ?_⟩
      intro j hj
      exact absurd hj (by simp)
    · rw [selectRsaKey, if_neg hk] at h
      obtain ⟨hrsa, i, hget, hbefore⟩ := ih h
      refine ⟨hrsa, ⟨i.val + 1, by simp⟩, ?_, ?_⟩
      · simpa using hget
      · intro j hj
        match j with
        | ⟨0, _⟩ => simpa using Bool.not_eq_true _ ▸ hk
        | ⟨jj + 1, hlt⟩ =>
            have : jj < i.val := by simpa using hj
            simpa using hbefore ⟨jj, by omega⟩ this

/-- Claim C1 (error_handling): for every item dequeued by the worker
loop, if handling the item raises an exception (in particular a
translation-port failure, uncaught inside the per-item step), then no
delivery transmission is attempted for that item, the fault is logged
by the loop's catch-all, and the loop does not terminate: every queued
item — in particular any subsequently queued one — is still dequeued
and handled. -/
theorem claim_translation_fault_containment (env : Env)
    (items : List CreateActivity) (i : Nat) (item : CreateActivity)
    (e : String)
    (hitem : items[i]? = some item)
    (hfail : (handle_create env item).outcome = .error e) :
    (run_worker env items)[i]?
        = some { hres := handle_create env item
                 taskDoneCalls := 0
                 workerFaultLogged := true }
      ∧ (handle_create env item).deliveries = []
      ∧ (run_worker env items).length = items.length
      ∧ ∀ (j : Nat) (item' : CreateActivity), items[j]? = some item' →
          (run_worker env items)[j]? = some (runWorkerStep env item') := by
  refine ⟨?_, handle_create_error_no_delivery env item e hfail,
    by simp [run_worker], ?_⟩
  · rw [run_worker, List.getElem?_map, hitem]
    simp [runWorkerStep, hfail]
  · intro j item' hj
    rw [run_worker, List.getElem?_map, hj]
    rfl

/-- Witness for C1: with a failing translation port, the first queued
item yields no delivery and a logged fault, and the second queued item
is still handled. -/
theorem claim_translation_fault_containment_witness :
    (run_worker cEnvTransFail [cActivity, cActivityNoMention])[0]?
        = some { hres := handle_create cEnvTransFail cActivity
                 taskDoneCalls := 0
                 workerFaultLogged := true }
      ∧ (handle_create cEnvTransFail cActivity).deliveries = []
      ∧ (run_worker cEnvTransFail [cActivity, cActivityNoMention]).length = 2
      ∧ (run_worker cEnvTransFail [cActivity, cActivityNoMention])[1]?
          = some (runWorkerStep cEnvTransFail cActivityNoMention) :=
  have h := claim_translation_fault_containment cEnvTransFail
    [cActivity, cActivityNoMention] 0 cActivity "transport error" rfl
    (by decide)
  ⟨h.1, h.2.1, h.2.2.1, h.2.2.2 1 cActivityNoMention rfl⟩

/-- Claim C2 (functional_correctness): an inbound `Create` whose `Note`
body does not textually contain the bot's canonical actor identifier
produces no translation call and no delivery attempt; `handle_create`
returns silently with no tracked side effect. -/
theorem claim_no_mention_silent (env : Env) (act : CreateActivity)
    (nid : String) (content : Option Forest)
    (hobj : act.object = .note nid content)
    (hno : strContains (renderForest (content.getD .nil))
      (botActorUrl env.settings) = false) :
    handle_create env act = {}
      ∧ (handle_create env act).translateCalls = []
      ∧ (handle_create env act).deliveries = []
      ∧ (handle_create env act).outcome = .ok () := by
  have h := handle_create_no_mention env act nid content hobj hno
  exact ⟨h, by rw [h], by rw [h], by rw [h]⟩

/-- Witness for C2: the fixture post without the bot mention is a
silent no-op. -/
theorem claim_no_mention_silent_witness :
    handle_create cEnv cActivityNoMention = {}
      ∧ (handle_create cEnv cActivityNoMention).translateCalls = []
      ∧ (handle_create cEnv cActivityNoMention).deliveries = []
      ∧ (handle_create cEnv cActivityNoMention).outcome = .ok () :=
  claim_no_mention_silent cEnv cActivityNoMention
    "https://mastodon.social/statuses/2" (some cContentNoMention) rfl
    (by decide)

/-- Claim C3 (functional_correctness): every text submitted to the
translation port is `extractPlainText` of the note body — the body with
the mention spans decomposed, remaining tags stripped to text nodes
joined by single spaces, and trimmed — and when that plain text is
empty (mention-only post), `handle_create` is a silent no-op with zero
translation calls. -/
theorem claim_extraction_and_empty_guard (env : Env) (act : CreateActivity)
    (nid : String) (content : Option Forest)
    (hobj : act.object = .note nid content) :
    (extractPlainText (content.getD .nil) = "" →
        handle_create env act = {})
      ∧ ∀ t ∈ (handle_create env act).translateCalls,
          t = extractPlainText (content.getD .nil) := by
  constructor
  · intro hp
    cases hm : strContains (renderForest (content.getD .nil))
        (botActorUrl env.settings) with
    | false => exact handle_create_no_mention env act nid content hobj hm
    | true => exact handle_create_empty_plain env act nid content hobj hm hp
  · exact mem_translateCalls_eq env act nid content hobj

/-- Witness for C3: the mention-only fixture triggers no translation,
and the eligible fixture submits exactly its extracted plain text. -/
theorem claim_extraction_and_empty_guard_witness :
    handle_create cEnv cActivityMentionOnly = {}
      ∧ (handle_create cEnv cActivity).translateCalls
          = [extractPlainText cContentWithText] :=
  have h1 := claim_extraction_and_empty_guard cEnv cActivityMentionOnly
    "https://mastodon.social/statuses/3" (some cContentMentionOnly) rfl
  have h2 := claim_extraction_and_empty_guard cEnv cActivity
    "https://mastodon.social/statuses/1" (some cContentWithText) rfl
  ⟨h1.1 (by decide), by
    have := h2.2
    rw [show (handle_create cEnv cActivity).translateCalls
        = ["Bonjour tout le monde"] from by decide] at this ⊢
    simp [this "Bonjour tout le monde" (by decide)]⟩

/-- Claim C10 (safety): a `Create` whose `Note` has an absent (`None`)
content field is treated as an empty body: `handle_create` returns
normally (no exception) with zero translation calls and zero delivery
attempts. -/
theorem claim_none_content_silent (env : Env) (act : CreateActivity)
    (nid : String) (hobj : act.object = .note nid none) :
    handle_create env act = {}
      ∧ (handle_create env act).translateCalls = []
      ∧ (handle_create env act).deliveries = []
      ∧ (handle_create env act).outcome = .ok () := by
  have hm : strContains (renderForest ((none : Option Forest).getD .nil))
      (botActorUrl env.settings) = false := by
    have h0 : renderForest ((none : Option Forest).getD .nil) = "" := rfl
    rw [h0]
    exact strContains_empty_of_ne _ (botActorUrl_data_ne_nil env.settings)
  have h := handle_create_no_mention env act nid none hobj hm
  exact ⟨h, by rw [h], by rw [h], by rw [h]⟩

/-- Witness for C10: the fixture activity with `content = None` is a
silent no-op. -/
theorem claim_none_content_silent_witness :
    handle_create cEnv cActivityNoContent = {}
      ∧ (handle_create cEnv cActivityNoContent).translateCalls = []
      ∧ (handle_create cEnv cActivityNoContent).deliveries = []
      ∧ (handle_create cEnv cActivityNoContent).outcome = .ok () :=
  claim_none_content_silent cEnv cActivityNoContent
    "https://mastodon.social/statuses/4" rfl

/-- Claim C5 (functional_correctness): every composed reply links back
to the triggering note (`in_reply_to` equals its identifier), addresses
the triggering activity's author directly (`to` contains the author
identifier), and carbon-copies the public collection marker. -/
theorem claim_reply_linkage_addressing (env : Env) (act : CreateActivity)
    (nid : String) (content : Option Forest) (d : Delivery)
    (hobj : act.object = .note nid content)
    (hd : d ∈ (handle_create env act).deliveries) :
    d.activity.object.in_reply_to = nid
    ∧ authorUrlOf act.actor ∈ d.activity.object.«to»
    ∧ d.activity.object.cc
        = ["https://www.w3.org/ns/activitystreams#Public"] := by
  obtain ⟨nid', content', res, ra, key, hobj', hm, hp, ht, hf, hk, hkid, hdd⟩ :=
    mem_deliveries_shape env act d hd
  rw [hobj] at hobj'
  injection hobj' with h1 h2
  subst h1
  subst hdd
  simp [mkDelivery, mkReplyCreate, mkReplyNote]

/-- Witness for C5: the concrete delivery for the eligible fixture is
linked to the original note, addressed to its author, and public in
carbon-copy. -/
theorem claim_reply_linkage_addressing_witness :
    (mkDelivery cEnv "https://mastodon.social/statuses/1"
        "https://mastodon.social/users/fulano" ⟨"Olá a todos", "fr"⟩
        cRemoteActor cRsaKey).activity.object.in_reply_to
      = "https://mastodon.social/statuses/1"
    ∧ authorUrlOf cActivity.actor
        ∈ (mkDelivery cEnv "https://mastodon.social/statuses/1"
            "https://mastodon.social/users/fulano" ⟨"Olá a todos", "fr"⟩
            cRemoteActor cRsaKey).activity.object.«to»
    ∧ (mkDelivery cEnv "https://mastodon.social/statuses/1"
        "https://mastodon.social/users/fulano" ⟨"Olá a todos", "fr"⟩
        cRemoteActor cRsaKey).activity.object.cc
        = ["https://www.w3.org/ns/activitystreams#Public"] :=
  claim_reply_linkage_addressing cEnv cActivity
    "https://mastodon.social/statuses/1" (some cContentWithText) _ rfl
    (by decide)

/-- Claim C6 (error_handling): when the transmission of an attempted
delivery fails, the fault is caught at the delivery step: the
per-destination error is logged, `handle_create` still returns normally
(no exception escapes), and the worker loop handles a subsequently
queued item. -/
theorem claim_delivery_fault_swallowed (env : Env) (act : CreateActivity)
    (d : Delivery) (e : String)
    (hd : d ∈ (handle_create env act).deliveries)
    (hpost : env.post d.inbox d.activity = .error e) :
    (handle_create env act).outcome = .ok ()
    ∧ deliveryErrorMsg (authorUrlOf act.actor) e
        ∈ (handle_create env act).errorLogs
    ∧ ∀ (items : List CreateActivity) (j : Nat) (item' : CreateActivity),
        items[j]? = some item' →
          (run_worker env items)[j]? = some (runWorkerStep env item') := by
  obtain ⟨nid, content, res, ra, key, hobj, hm, hp, ht, hf, hk, hkid, hdd⟩ :=
    mem_deliveries_shape env act d hd
  subst hdd
  have hpost' : env.post ra.inbox
      (mkReplyCreate env nid (authorUrlOf act.actor) res ra) = .error e := by
    simpa [mkDelivery] using hpost
  rw [handle_create_post_error env act nid content res ra key e hobj hm hp ht
    hf hk hkid hpost']
  refine ⟨rfl, by simp, ?_⟩
  intro items j item' hj
  rw [run_worker, List.getElem?_map, hj]
  rfl

/-- Witness for C6: with a failing transmission collaborator, the
eligible fixture's fault is logged, no exception escapes, and a second
queued item is still handled. -/
theorem claim_delivery_fault_swallowed_witness :
    (handle_create cEnvPostFail cActivity).outcome = .ok ()
    ∧ deliveryErrorMsg (authorUrlOf cActivity.actor) "connection refused"
        ∈ (handle_create cEnvPostFail cActivity).errorLogs
    ∧ (run_worker cEnvPostFail [cActivity, cActivityNoMention])[1]?
        = some (runWorkerStep cEnvPostFail cActivityNoMention) :=
  have h := claim_delivery_fault_swallowed cEnvPostFail cActivity
    (mkDelivery cEnvPostFail "https://mastodon.social/statuses/1"
      "https://mastodon.social/users/fulano" ⟨"Olá a todos", "fr"⟩
      cRemoteActor cRsaKey) "connection refused" (by decide) (by decide)
  ⟨h.1, h.2.1, h.2.2 [cActivity, cActivityNoMention] 1 cActivityNoMention rfl⟩

/-- Claim C7 (error_handling): the delivery step selects the first key
whose material is RSA; with a key list holding no RSA entry, the item
is abandoned with the key error logged, no transmission attempted and
no exception; and any attempted delivery is signed with the selected
first RSA key's id. -/
theorem claim_rsa_key_selection (env : Env) (act : CreateActivity)
    (nid : String) (content : Option Forest) (res : TranslationResult)
    (ra : RemoteActor)
    (hobj : act.object = .note nid content)
    (hm : strContains (renderForest (content.getD .nil))
      (botActorUrl env.settings) = true)
    (hp : ¬ extractPlainText (content.getD .nil) = "")
    (ht : env.translate (extractPlainText (content.getD .nil)) = .ok res)
    (hf : env.fetchActor (authorUrlOf act.actor) = .ok ra) :
    ((∀ k ∈ env.getBotKeys, k.private_key.isRsa = false) →
        handle_create env act =
          { translateCalls := [extractPlainText (content.getD .nil)]
            errorLogs := [rsaKeyErrorMsg] })
    ∧ ∀ key, selectRsaKey env.getBotKeys = some key →
        key.private_key.isRsa = true
        ∧ (∃ i : Fin env.getBotKeys.length, env.getBotKeys.get i = key
            ∧ ∀ j : Fin env.getBotKeys.length, (j : Nat) < (i : Nat) →
                (env.getBotKeys.get j).private_key.isRsa = false)
        ∧ (¬ key.key_id = "" →
            ∀ d ∈ (handle_create env act).deliveries,
              d.key_id = key.key_id) := by
  constructor
  · intro hall
    exact handle_create_no_rsa env act nid content res ra hobj hm hp ht hf
      (selectRsaKey_none_of_all env.getBotKeys hall)
  · intro key hk
    obtain ⟨hrsa, i, hget, hbefore⟩ := selectRsaKey_first env.getBotKeys key hk
    refine ⟨hrsa, ⟨i, hget, hbefore⟩, ?_⟩
    intro hkid d hd
    obtain ⟨nid', content', res', ra', key', hobj', hm', hp', ht', hf', hk',
      hkid', hdd⟩ := mem_deliveries_shape env act d hd
    rw [hk] at hk'
    injection hk' with hkk
    subst hkk
    subst hdd
    simp [mkDelivery]

/-- Witness for C7: with only a non-RSA key configured, the eligible
fixture is abandoned with the key error logged and no delivery. -/
theorem claim_rsa_key_selection_witness :
    handle_create cEnvNoRsa cActivity =
      { translateCalls := ["Bonjour tout le monde"]
        errorLogs := [rsaKeyErrorMsg] } :=
  have h := claim_rsa_key_selection cEnvNoRsa cActivity
    "https://mastodon.social/statuses/1" (some cContentWithText)
    ⟨"Olá a todos", "fr"⟩ cRemoteActor rfl (by decide) (by decide) (by decide)
    (by decide)
  (h.1 (by decide)).trans (by decide)

/-- The reply body template of lines 77–81 of the source, re-grouped:
attribution span linking to the author, then the bold language marker,
then a line break, then the translated text. -/
theorem reply_html_decomposition (u un S T tr : String) :
    reply_html u un S T tr
      = ("<p><span class=\x22h-card\x22>" ++ ("<a href=\x22" ++ u ++ "\x22>")
          ++ ("@" ++ un ++ "</a></span> 🌐 "))
        ++ (("<strong>" ++ ("[" ++ S ++ " → " ++ T ++ "]") ++ "</strong>")
          ++ ("<br>" ++ (tr ++ "</p>"))) := by
  have l1 : ("<p><span class=\x22h-card\x22><a href=\x22" : String)
      = "<p><span class=\x22h-card\x22>" ++ "<a href=\x22" := by decide
  have l2 : ("\x22>@" : String) = "\x22>" ++ "@" := by decide
  have l3 : ("</a></span> 🌐 <strong>[" : String)
      = "</a></span> 🌐 " ++ "<strong>" ++ "[" := by decide
  have l4 : ("]</strong><br>" : String) = "]" ++ "</strong>" ++ "<br>" := by
    decide
  unfold reply_html
  rw [l1, l2, l3, l4]
  simp only [String.append_assoc]

/-- Claim C4 (functional_correctness): every delivered reply body
contains the translated text verbatim and the upper-cased marker
`[SRC → DST]` built from the detected source and configured target
languages, with an attribution fragment linking to the original author
before the marker and a line break between the marker and the
translated text. -/
theorem claim_reply_body_template (env : Env) (act : CreateActivity)
    (d : Delivery) (hd : d ∈ (handle_create env act).deliveries) :
    ∃ nid content res,
      act.object = .note nid content
      ∧ env.translate (extractPlainText (content.getD .nil)) = .ok res
      ∧ strContains d.activity.object.content res.translated = true
      ∧ strContains d.activity.object.content
          ("[" ++ strToUpper res.detected_source ++ " → "
            ++ strToUpper env.settings.target_language ++ "]") = true
      ∧ ∃ a b, d.activity.object.content
            = a ++ (b ++ ("<br>" ++ (res.translated ++ "</p>")))
          ∧ strContains a
              ("<a href=\x22" ++ authorUrlOf act.actor ++ "\x22>") = true
          ∧ strContains b
              ("[" ++ strToUpper res.detected_source ++ " → "
                ++ strToUpper env.settings.target_language ++ "]") = true := by
  obtain ⟨nid, content, res, ra, key, hobj, hm, hp, ht, hf, hk, hkid, hdd⟩ :=
    mem_deliveries_shape env act d hd
  subst hdd
  have hdec : (mkDelivery env nid (authorUrlOf act.actor) res ra
        key).activity.object.content
      = ("<p><span class=\x22h-card\x22>"
            ++ ("<a href=\x22" ++ authorUrlOf act.actor ++ "\x22>")
            ++ ("@" ++ lastUrlSegment (authorUrlOf act.actor)
              ++ "</a></span> 🌐 "))
          ++ (("<strong>"
              ++ ("[" ++ strToUpper res.detected_source ++ " → "
                ++ strToUpper env.settings.target_language ++ "]")
              ++ "</strong>")
            ++ ("<br>" ++ (res.translated ++ "</p>"))) := by
    show reply_html (authorUrlOf act.actor)
        (lastUrlSegment (authorUrlOf act.actor))
        (strToUpper res.detected_source)
        (strToUpper env.settings.target_language) res.translated = _
    exact reply_html_decomposition _ _ _ _ _
  refine ⟨nid, content, res, hobj, ht, ?_, ?_, ?_⟩
  · apply strContains_of_eq _
      (("<p><span class=\x22h-card\x22>"
          ++ ("<a href=\x22" ++ authorUrlOf act.actor ++ "\x22>")
          ++ ("@" ++ lastUrlSegment (authorUrlOf act.actor)
            ++ "</a></span> 🌐 "))
        ++ (("<strong>"
            ++ ("[" ++ strToUpper res.detected_source ++ " → "
              ++ strToUpper env.settings.target_language ++ "]")
            ++ "</strong>")
          ++ "<br>"))
      res.translated "</p>"
    rw [hdec]
    simp only [String.append_assoc]
  · apply strContains_of_eq _
      (("<p><span class=\x22h-card\x22>"
          ++ ("<a href=\x22" ++ authorUrlOf act.actor ++ "\x22>")
          ++ ("@" ++ lastUrlSegment (authorUrlOf act.actor)
            ++ "</a></span> 🌐 "))
        ++ "<strong>")
      ("[" ++ strToUpper res.detected_source ++ " → "
        ++ strToUpper env.settings.target_language ++ "]")
      ("</strong>" ++ ("<br>" ++ (res.translated ++ "</p>")))
    rw [hdec]
    simp only [String.append_assoc]
  · refine ⟨"<p><span class=\x22h-card\x22>"
        ++ ("<a href=\x22" ++ authorUrlOf act.actor ++ "\x22>")
        ++ ("@" ++ lastUrlSegment (authorUrlOf act.actor)
          ++ "</a></span> 🌐 "),
      "<strong>"
        ++ ("[" ++ strToUpper res.detected_source ++ " → "
          ++ strToUpper env.settings.target_language ++ "]")
        ++ "</strong>", hdec, ?_, ?_⟩
    · apply strContains_of_eq _ "<p><span class=\x22h-card\x22>"
        ("<a href=\x22" ++ authorUrlOf act.actor ++ "\x22>")
        ("@" ++ lastUrlSegment (authorUrlOf act.actor) ++ "</a></span> 🌐 ")
      simp only [String.append_assoc]
    · apply strContains_of_eq _ "<strong>"
        ("[" ++ strToUpper res.detected_source ++ " → "
          ++ strToUpper env.settings.target_language ++ "]")
        "</strong>"
      simp only [String.append_assoc]

/-- Witness for C4: the eligible fixture ("Bonjour tout le monde"
detected as `fr`, target `pt`) yields a reply body containing
"Olá a todos" and the marker "[FR → PT]" in the stated layout. -/
theorem claim_reply_body_template_witness :
    ∃ nid content res,
      cActivity.object = .note nid content
      ∧ cEnv.translate (extractPlainText (content.getD .nil)) = .ok res
      ∧ strContains (mkDelivery cEnv "https://mastodon.social/statuses/1"
            "https://mastodon.social/users/fulano" ⟨"Olá a todos", "fr"⟩
            cRemoteActor cRsaKey).activity.object.content
          res.translated = true
      ∧ strContains (mkDelivery cEnv "https://mastodon.social/statuses/1"
            "https://mastodon.social/users/fulano" ⟨"Olá a todos", "fr"⟩
            cRemoteActor cRsaKey).activity.object.content
          ("[" ++ strToUpper res.detected_source ++ " → "
            ++ strToUpper cEnv.settings.target_language ++ "]") = true
      ∧ ∃ a b, (mkDelivery cEnv "https://mastodon.social/statuses/1"
            "https://mastodon.social/users/fulano" ⟨"Olá a todos", "fr"⟩
            cRemoteActor cRsaKey).activity.object.content
            = a ++ (b ++ ("<br>" ++ (res.translated ++ "</p>")))
          ∧ strContains a
              ("<a href=\x22" ++ authorUrlOf cActivity.actor ++ "\x22>") = true
          ∧ strContains b
              ("[" ++ strToUpper res.detected_source ++ " → "
                ++ strToUpper cEnv.settings.target_language ++ "]") = true :=
  claim_reply_body_template cEnv cActivity
    (mkDelivery cEnv "https://mastodon.social/statuses/1"
      "https://mastodon.social/users/fulano" ⟨"Olá a todos", "fr"⟩
      cRemoteActor cRsaKey) (by decide)

/-- Claim C9 counterexample: the code does not prevent self-replies.
With the bot itself as the activity's actor and an eligible
self-mentioning note, `handle_create` still attempts a delivery, so
"the author of every delivered-to activity differs from the bot
identity" is false on the code. -/
theorem claim_self_reply_counterexample :
    authorUrlOf cActivitySelf.actor = botActorUrl cEnv.settings
    ∧ (handle_create cEnv cActivitySelf).deliveries ≠ [] := by decide

/-- Claim C9 as amended: `handle_create` performs no author-identity
guard — even when the activity's author identity equals the bot's own
actor identity, an eligible post still leads to a delivery attempt
(the self-reply case is not prevented). -/
theorem claim_self_reply_not_prevented (env : Env) (act : CreateActivity)
    (nid : String) (content : Option Forest) (res : TranslationResult)
    (ra : RemoteActor) (key : ActorKey)
    (hobj : act.object = .note nid content)
    (hm : strContains (renderForest (content.getD .nil))
      (botActorUrl env.settings) = true)
    (hp : ¬ extractPlainText (content.getD .nil) = "")
    (ht : env.translate (extractPlainText (content.getD .nil)) = .ok res)
    (hf : env.fetchActor (authorUrlOf act.actor) = .ok ra)
    (hk : selectRsaKey env.getBotKeys = some key)
    (hkid : ¬ key.key_id = "")
    (_hself : authorUrlOf act.actor = botActorUrl env.settings) :
    (handle_create env act).deliveries
      = [mkDelivery env nid (authorUrlOf act.actor) res ra key] := by
  cases hpost : env.post ra.inbox
      (mkReplyCreate env nid (authorUrlOf act.actor) res ra) with
  | ok n =>
    rw [handle_create_post_ok env act nid content res ra key n hobj hm hp ht
      hf hk hkid hpost]
  | error e =>
    rw [handle_create_post_error env act nid content res ra key e hobj hm hp
      ht hf hk hkid hpost]

/-- Witness for the amended C9: the self-authored eligible fixture
produces a delivery attempt. -/
theorem claim_self_reply_not_prevented_witness :
    (handle_create cEnv cActivitySelf).deliveries
      = [mkDelivery cEnv "https://bot.test/users/testbot/statuses/5"
          (authorUrlOf cActivitySelf.actor) ⟨"Olá a todos", "fr"⟩
          cRemoteActor cRsaKey] :=
  claim_self_reply_not_prevented cEnv cActivitySelf
    "https://bot.test/users/testbot/statuses/5" (some cContentWithText)
    ⟨"Olá a todos", "fr"⟩ cRemoteActor cRsaKey rfl (by decide) (by decide)
    (by decide) (by decide) (by decide) (by decide) (by decide)

/-- Claim C8: the source calls `task_done()` only on the line after
`handle_create` returns, inside the `try` block; when handling an item
raises (here: a translation failure on an eligible item), control jumps
to the `except` clause and `task_done()` is never invoked for that
dequeued item — its completion acknowledgment count is 0, not 1, so a
"wait until fully drained" (`queue.join()`) would block forever.  The
fault is still logged and the item was dequeued and handled. -/
theorem claim_taskdone_skipped_on_fault :
    run_worker cEnvTransFail [cActivity]
      = [{ hres := { translateCalls := ["Bonjour tout le monde"]
                     outcome := .error "transport error" }
           taskDoneCalls := 0
           workerFaultLogged := true }] := by decide
